import Mathlib

/-!
Verification development for the Jubilee machine-communication and motion-safety
core (`science_jubilee/JubileeController.py`).

The controller is shallowly embedded: machine-visible state (simulation flag,
connection, positioning mode, cached homed flags, axis limits, and the ordered
trace of commands sent over the wire) is a `Ctl` record, hardware replies are an
`Env` record, and every operation is a state-passing function returning
`Except JubileeExc α × Ctl` (exceptions propagate, state mutations made before
a raise persist, mirroring Python).

Numeric values (Python floats) are modelled as exact rationals.  Arithmetic is
implemented directly on numerator/denominator (via `mkRat`, `Int.fdiv`, `Nat`
operations) so that runs reduce inside the kernel; bridging lemmas connect these
operations to the standard `ℚ` order and addition.
-/

/-! ## Rational helpers (computable on num/den) -/

/-- Rational addition computed on numerator/denominator (equal to `+`, see `qadd_eq`). -/
def qadd (a b : ℚ) : ℚ := mkRat (a.num * b.den + b.num * a.den) (a.den * b.den)

/-- Rational order test computed on numerator/denominator (equal to `≤`, see `qle_iff`). -/
def qle (a b : ℚ) : Bool := decide (a.num * (b.den : ℤ) ≤ b.num * (a.den : ℤ))

/-- Round-half-even of the fraction `n / d` (for `d > 0`), on naturals. -/
def rheNat (n d : ℕ) : ℕ :=
  let f := n / d
  let r2 := 2 * (n % d)
  if r2 < d then f else if d < r2 then f + 1 else if f % 2 = 0 then f else f + 1

/-- Decimal digit character for `d % 10`. -/
def decDigit (d : ℕ) : Char := Char.ofNat (48 + d % 10)

/-- Digit list of a natural number, most significant first (`fuel ≥ 1` suffices
when `fuel > log10 n`). -/
def natDigs : ℕ → ℕ → List Char
  | 0, _ => []
  | fuel + 1, n => if n < 10 then [decDigit n] else natDigs fuel (n / 10) ++ [decDigit (n % 10)]

/-- Decimal string of a natural number. -/
def natToStr (n : ℕ) : String := String.mk (natDigs (n + 1) n)

/-- Fractional part of a fixed-two-decimals rendering: two digits, zero padded. -/
def fracPad2 (m : ℕ) : String := (if m < 10 then "0" else "") ++ natToStr m

/-- Model of Python `f"{value:.2f}"`: round the value to hundredths (half to
even) and render with exactly two digits after the decimal point. -/
def fmtFixed2 (q : ℚ) : String :=
  let m : ℕ := rheNat (q.num.natAbs * 100) q.den
  (if q.num < 0 then "-" else "") ++ natToStr (m / 100) ++ "." ++ fracPad2 (m % 100)

/-- Numeric rendering used only inside log/exception message strings (Python
interpolates `str(float)`; the exact float repr is immaterial to control flow,
so a plain exact-rational rendering is used). -/
def qstr (q : ℚ) : String :=
  (if q.num < 0 then "-" else "") ++ natToStr q.num.natAbs ++
    (if q.den = 1 then "" else "/" ++ natToStr q.den)

/-! ## Character-list string utilities (kernel-reducible) -/

/-- Drops `p` from the front of `s` when `p` is a prefix, else `none`. -/
def stripLead : List Char → List Char → Option (List Char)
  | [], s => some s
  | _ :: _, [] => none
  | p :: ps, c :: cs => if p = c then stripLead ps cs else none

/-- Splits at the first occurrence of `sep`, returning the text before and after
it, or `none` when `sep` does not occur. -/
def splitFirst (sep : List Char) : List Char → Option (List Char × List Char)
  | [] => match stripLead sep [] with
          | some rem => some ([], rem)
          | none => none
  | c :: cs => match stripLead sep (c :: cs) with
          | some rem => some ([], rem)
          | none => (splitFirst sep cs).map (fun p => (c :: p.1, p.2))

/-- Model of the Python substring test `pat in s`. -/
def containsStr (s pat : String) : Bool := (splitFirst pat.data s.data).isSome

/-- Model of Python `s.split(sep, 1)[0]`: the text before the first occurrence
of `sep`, or all of `s` when `sep` does not occur. -/
def takeBeforeFirst (sep : String) (s : String) : String :=
  match splitFirst sep.data s.data with
  | some p => String.mk p.1
  | none => s

/-- Whitespace tokenisation, dropping empty pieces: Python `s.split()`. -/
def wsTokens : List Char → List Char → List String
  | [], acc => if acc.isEmpty then [] else [String.mk acc.reverse]
  | c :: cs, acc =>
      if c.isWhitespace then
        if acc.isEmpty then wsTokens cs [] else String.mk acc.reverse :: wsTokens cs []
      else wsTokens cs (c :: acc)

/-- Splits at the first occurrence of the character `sep`: Python
`s.split(sep, 1)` restricted to the found case. -/
def splitFirstChar (sep : Char) : List Char → Option (String × String)
  | [] => none
  | c :: cs =>
      if c = sep then some ("", String.mk cs)
      else (splitFirstChar sep cs).map (fun p => (String.mk (c :: p.1.data), p.2))

/-- Model of Python `float(s)` restricted to plain decimal literals
`[+|-] digits [. digits]` (scientific notation, `inf`/`nan` and underscores,
which never occur in the machine replies at issue, are rejected). -/
def parseFloatQ (s : String) : Option ℚ :=
  let sgnBody : ℤ × List Char :=
    match s.data with
    | '-' :: t => (-1, t)
    | '+' :: t => (1, t)
    | t => (1, t)
  let sgn := sgnBody.1
  let body := sgnBody.2
  match splitFirst ['.'] body with
  | none =>
      if body ≠ [] ∧ body.all Char.isDigit then
        some (mkRat (sgn * digitsVal body) 1)
      else none
  | some (ip, fp) =>
      if (ip ≠ [] ∨ fp ≠ []) ∧ ip.all Char.isDigit ∧ fp.all Char.isDigit ∧
          (splitFirst ['.'] fp).isNone then
        some (mkRat (sgn * (digitsVal ip * 10 ^ fp.length + digitsVal fp)) (10 ^ fp.length))
      else none
where
  /-- Numeric value of a digit string. -/
  digitsVal (cs : List Char) : ℕ := cs.foldl (fun a c => a * 10 + (c.toNat - 48)) 0

/-! ## Errors, machine state, hardware environment -/

/-- Exception kinds raised by the controller code; constructors mirror the
Python exception classes that can escape the modelled paths, each carrying the
formatted message. -/
inductive JubileeExc where
  | stateError (msg : String)
  | configurationError (msg : String)
  | communicationError (msg : String)
  | homingError (msg : String)
  | controllerError (msg : String)
  | valueError (msg : String)
  | indexError (msg : String)
  | keyError (msg : String)
  | typeError (msg : String)
  | requestsError (msg : String)
  deriving DecidableEq, Repr

/-- Message text of an exception (Python `str(e)`, used when an exception is
interpolated into a wrapping message). -/
def JubileeExc.message : JubileeExc → String
  | .stateError m | .configurationError m | .communicationError m | .homingError m
  | .controllerError m | .valueError m | .indexError m | .keyError m
  | .typeError m | .requestsError m => m

/-- Controller state: the attributes of `JubileeController` the modelled
operations read or write, plus the ordered trace of command strings actually
sent over the wire (HTTP); in simulation mode nothing is ever sent. -/
structure Ctl where
  simulated : Bool
  crash_detection : Bool
  /-- `session is not None` in the Python code. -/
  connected : Bool
  absolute_positioning : Bool
  /-- Cached homed flags, indexed `[X, Y, Z, U]`. -/
  axes_homed : List Bool
  /-- `_axis_limits`: per-axis `(min, max)` or `None`, in configured-axis order. -/
  axis_limits : List (Option (ℚ × ℚ))
  trace : List String
  deriving DecidableEq, Repr

/-- Hardware-side environment: how the machine answers while a run is in
progress.  `homedResult` is the parsed `result` list of the homed-status query
(`none` models a reply `json.loads`/`"result"` lookup failure); `reply` gives
the text answer for a command; `cmdError` makes the transport raise for a
command (the command has already gone out on the wire when it raises). -/
structure Env where
  homedResult : Option (List Bool)
  reply : String → String
  cmdError : String → Option JubileeExc

/-! ## State-passing combinators

An operation is a function `Ctl → Except JubileeExc α × Ctl`; the final state is
returned in both the success and the raise case, because Python state mutations
performed before an exception persist. -/

/-- Monadic result type of the embedding. -/
def MRes (α : Type) : Type := Ctl → Except JubileeExc α × Ctl

/-- Returns a value, leaving state unchanged. -/
def mpure {α : Type} (a : α) : MRes α := fun s => (.ok a, s)

/-- Sequencing: on error, the error and the state at raise time propagate. -/
def mbind {α β : Type} (m : MRes α) (k : α → MRes β) : MRes β := fun s =>
  match m s with
  | (.ok a, s') => k a s'
  | (.error e, s') => (.error e, s')

/-- Raises an exception. -/
def mthrow {α : Type} (e : JubileeExc) : MRes α := fun s => (.error e, s)

/-- Python `try`/`except Exception`: the handler sees the state at raise time. -/
def mtry {α : Type} (m : MRes α) (h : JubileeExc → MRes α) : MRes α := fun s =>
  match m s with
  | (.ok a, s') => (.ok a, s')
  | (.error e, s') => h e s'

/-- Reads the controller state. -/
def mget : MRes Ctl := fun s => (.ok s, s)

/-- Updates the controller state. -/
def mmodify (f : Ctl → Ctl) : MRes Unit := fun s => (.ok (), f s)

/-! ## TransportChannel: the `gcode` wire protocol (primary + fallback path)

`gcode_transport` models the non-simulated body of `JubileeController.gcode`
at the level of the two HTTP paths, for the crash-detection/propagation claims.
The rest of the development uses the command-level abstraction `gcode` below. -/

/-- Outcome of the primary `POST /machine/code` exchange. -/
inductive PrimaryOutcome where
  | reply (text : String)
  | requestException
  deriving DecidableEq, Repr

/-- Outcome of the fallback polling loop (`rr_model`/`rr_gcode`/`rr_reply`). -/
inductive FallbackOutcome where
  /-- The reply counter changed and `GET /rr_reply` returned this text. -/
  | newReply (text : String)
  /-- `response_wait` elapsed with no counter change. -/
  | timedOut
  /-- One of the fallback GET requests raised, with this message. -/
  | transportExn (msg : String)
  deriving DecidableEq, Repr

/-- Body of the fallback `try` block: polls, then either returns the reply,
raises `JubileeStateError` on a detected crash (crash detection enabled and the
reply contains the crash marker), or raises on timeout/transport failure. -/
def gcode_fallback_inner (crash_detection : Bool) : FallbackOutcome → Except JubileeExc String
  | .newReply t =>
      if crash_detection ∧ containsStr t "crash detected" then
        .error (.stateError "Crash detected during G-code execution!")
      else .ok t
  | .timedOut => .error (.communicationError "Timeout waiting for G-code reply.")
  | .transportExn msg => .error (.requestsError msg)

/-- Fallback path with its surrounding handler: `except Exception as e` wraps
every failure of the block into
`JubileeCommunicationError(f"G-code communication failed: {e}")`. -/
def gcode_fallback (crash_detection : Bool) (fb : FallbackOutcome) : Except JubileeExc String :=
  match gcode_fallback_inner crash_detection fb with
  | .ok t => .ok t
  | .error e => .error (.communicationError ("G-code communication failed: " ++ e.message))

/-- Non-simulated body of `gcode`: try the primary path; on a
`requests.RequestException` or a reply containing the rejection marker, run the
fallback path. -/
def gcode_transport (crash_detection : Bool) (prim : PrimaryOutcome)
    (fb : FallbackOutcome) : Except JubileeExc String :=
  match prim with
  | .reply t =>
      if ¬ containsStr t "rejected" then .ok t
      else gcode_fallback crash_detection fb
  | .requestException => gcode_fallback crash_detection fb

/-! ## Command-level communication -/

/-- Canned replies of the simulated `gcode` branch. -/
def simReply (cmd : String) : String :=
  if "M409".isPrefixOf cmd then "\x7b\"result\": [true, true, true, true]\x7d"
  else if "M114".isPrefixOf cmd then "X:0.00 Y:0.00 Z:0.00 U:0.00 Count 0 0 0 0"
  else if "M119".isPrefixOf cmd then "X: open\nY: open\nZ: open\nU: open"
  else ""

/-- Command-level model of `gcode`: in simulation it only logs and returns a
canned reply; otherwise it requires a connection, records the command on the
wire trace, and either returns the environment's reply text or raises the
environment's transport error for that command (the command is on the wire
before the raise, as in reality). -/
def gcode (env : Env) (cmd : String) : MRes String := fun s =>
  if s.simulated then (.ok (simReply cmd), s)
  else if ¬ s.connected then
    (.error (.communicationError
      "Not connected: call connect() before sending G-code commands."), s)
  else
    let s' := { s with trace := s.trace ++ [cmd] }
    match env.cmdError cmd with
    | some e => (.error e, s')
    | none => (.ok (env.reply cmd), s')

/-- The homed-status query command. -/
def homedQueryCmd : String := "M409 K\"move.axes[].homed\""

/-- Sends the homed-status query and parses its JSON reply:
`json.loads(self.gcode('M409 K"move.axes[].homed"'))["result"]`.  A reply that
does not parse raises (modelled by `env.homedResult = none`). -/
def queryHomedParsed (env : Env) : MRes (List Bool) :=
  mbind (gcode env homedQueryCmd) (fun _r =>
    match env.homedResult with
    | some hs => mpure hs
    | none => mthrow (.valueError "invalid JSON reply"))

/-- The `machine_homed` decorator around a gated action: in simulation it runs
the action directly; otherwise it queries the homed status fresh from hardware
(a query failure is wrapped into `JubileeStateError("Unable to check homing
state.")`), and raises `JubileeStateError` unless the first four reported axes
are all homed.  The cached `axes_homed` flags are not consulted. -/
def machine_homed {α : Type} (env : Env) (act : MRes α) : MRes α :=
  mbind mget (fun st =>
    if st.simulated then act
    else
      mbind (mtry (queryHomedParsed env)
              (fun _e => mthrow (.stateError "Unable to check homing state.")))
        (fun axesHomed =>
          if (axesHomed.take 4).all id then act
          else mthrow (.stateError
            "Error: The machine must be homed (X, Y, Z, U) before this operation.")))

/-! ## Motion & positioning -/

/-- `_set_absolute_positioning`: emit `G90` (outside simulation) and record the
mode. -/
def _set_absolute_positioning (env : Env) : MRes Unit :=
  mbind mget (fun st =>
    if st.simulated then mmodify (fun s => { s with absolute_positioning := true })
    else mbind (gcode env "G90")
      (fun _ => mmodify (fun s => { s with absolute_positioning := true })))

/-- `_set_relative_positioning`: emit `G91` (outside simulation) and record the
mode. -/
def _set_relative_positioning (env : Env) : MRes Unit :=
  mbind mget (fun st =>
    if st.simulated then mmodify (fun s => { s with absolute_positioning := false })
    else mbind (gcode env "G91")
      (fun _ => mmodify (fun s => { s with absolute_positioning := false })))

/-- Command parts `f"{axis}{value:.2f}"` for the non-`None` entries of
`{"X": x, "Y": y, "Z": z, "U": u, "F": s}`, in dict order. -/
def moveCmdParts (x y z u : Option ℚ) (s : ℚ) : List String :=
  ([("X", x), ("Y", y), ("Z", z), ("U", u), ("F", some s)] : List (String × Option ℚ)).filterMap
    (fun p => p.2.map (fun v => p.1 ++ fmtFixed2 v))

/-- The `G0` move command emitted by `_move_xyzu`. -/
def moveCmd (x y z u : Option ℚ) (s : ℚ) (param : Option String) : String :=
  "G0 " ++ String.intercalate " "
    (moveCmdParts x y z u s ++ (match param with | some p => [p] | none => []))

/-- `_move_xyzu` (decorated with `machine_homed`): in simulation, log-only
`gcode` calls; otherwise emit the formatted `G0` command and, when `wait`,
`M400`.  The simulated branch interpolates the raw optional values into the
command f-string; since simulated `gcode` only answers by command prefix, that
string is rendered here with the same fixed-point formatter. -/
def _move_xyzu (env : Env) (x y z u : Option ℚ) (s : ℚ) (param : Option String)
    (wait : Bool) : MRes Unit :=
  machine_homed env
    (mbind mget (fun st =>
      if st.simulated then
        mbind (gcode env (moveCmd x y z u s none))
          (fun _ => if wait then mbind (gcode env "M400") (fun _ => mpure ()) else mpure ())
      else
        mbind (gcode env (moveCmd x y z u s param))
          (fun _ => if wait then mbind (gcode env "M400") (fun _ => mpure ()) else mpure ())))

/-- Exception message of an axis-limit violation
(`f"{kind} move exceeds {axis} axis limit ({lo}–{hi} mm)"`). -/
def limitMsg (relative : Bool) (axis : String) (lo hi : ℚ) : String :=
  (if relative then "Relative" else "Absolute") ++ " move exceeds " ++ axis ++
    " axis limit (" ++ qstr lo ++ "–" ++ qstr hi ++ " mm)"

/-- Looks a key up in an association list modelling a Python dict. -/
def dictGet {β : Type} (l : List (String × β)) (k : String) : Option β :=
  (l.find? (fun p => p.1 = k)).map (fun p => p.2)

/-- Inner loop of `_check_axis_limits` over the target entries, in order.
`limits` is `dict(zip(("X","Y","Z"), self._axis_limits[:3]))` and `pos` the
fetched current position (empty for absolute moves). -/
def checkLimitsLoop (limits : List (String × Option (ℚ × ℚ)))
    (pos : List (String × Option ℚ)) (relative : Bool) :
    List (String × Option ℚ) → MRes Unit
  | [] => mpure ()
  | (axis, value) :: rest =>
    match value with
    | none => checkLimitsLoop limits pos relative rest
    | some v =>
      match dictGet limits axis with
      | none => checkLimitsLoop limits pos relative rest
      | some none => checkLimitsLoop limits pos relative rest
      | some (some lohi) =>
        mbind
          (if relative then
            match dictGet pos axis with
            | none => mthrow (.keyError axis)
            | some none => mthrow (.typeError
                "float() argument must be a string or a real number, not 'NoneType'")
            | some (some cur) => mpure (qadd cur v)
          else mpure v)
          (fun testValue =>
            if qle lohi.1 testValue ∧ qle testValue lohi.2 then
              checkLimitsLoop limits pos relative rest
            else mthrow (.stateError (limitMsg relative axis lohi.1 lohi.2)))

/-- Parsing stage of `get_position`: keep the text before the first
`" Count "`, whitespace-tokenise it, and store each `AXIS:value` token in the
positions dict — with value `None` when `float()` fails (ValueError). -/
def parsePositionReply (response : String) : List (String × Option ℚ) :=
  let beforeCount := takeBeforeFirst " Count " response
  (wsTokens beforeCount.data []).foldl
    (fun positions element =>
      match splitFirstChar ':' element.data with
      | none => positions
      | some axisRest =>
        let entry := (axisRest.1, parseFloatQ axisRest.2)
        if positions.any (fun p => p.1 = entry.1) then
          positions.map (fun p => if p.1 = entry.1 then entry else p)
        else positions ++ [entry])
    []

/-- Retry loop of `get_position`: up to `n` sends of `M114`, stopping at the
first reply containing `"Count"`; exhaustion raises
`JubileeCommunicationError`. -/
def getPositionLoop (env : Env) : ℕ → MRes String
  | 0 => mthrow (.communicationError
      "Failed to get valid position response after max retries.")
  | n + 1 =>
    mbind (gcode env "M114") (fun response =>
      if containsStr response "Count" then mpure response
      else getPositionLoop env n)

/-- `get_position`: simulated dummy position, or `M114` polling (50 tries)
followed by reply parsing. -/
def get_position (env : Env) : MRes (List (String × Option ℚ)) :=
  mbind mget (fun st =>
    if st.simulated then
      mpure [("X", some 0), ("Y", some 0), ("Z", some 0), ("U", some 0)]
    else
      mbind (getPositionLoop env 50) (fun response =>
        mpure (parsePositionReply response)))

/-- `_check_axis_limits`: no-op in simulation; raises
`JubileeConfigurationError` when no axis has configured limits (Python
`not any(self._axis_limits)`); otherwise checks each non-`None` target entry
against the `X`/`Y`/`Z` limits dict, fetching the current position first for
relative moves. -/
def _check_axis_limits (env : Env) (target : List (String × Option ℚ))
    (relative : Bool) : MRes Unit :=
  mbind mget (fun st =>
    if st.simulated then mpure ()
    else if ¬ st.axis_limits.any Option.isSome then
      mthrow (.configurationError "Axis limits are not configured.")
    else
      let limits := List.zip ["X", "Y", "Z"] (st.axis_limits.take 3)
      mbind (if relative then get_position env else mpure [])
        (fun pos => checkLimitsLoop limits pos relative target))

/-- `move_to`: absolute positioning, then the `X`/`Y`/`Z` limit check, then the
gated move.  The `except` clauses of the Python body log and re-raise
unchanged, so they do not alter the semantics; the simulated branch runs the
same three calls. -/
def move_to (env : Env) (x y z u : Option ℚ) (s : ℚ) (param : Option String)
    (wait : Bool) : MRes Unit :=
  mbind (_set_absolute_positioning env) (fun _ =>
    mbind (_check_axis_limits env [("X", x), ("Y", y), ("Z", z)] false) (fun _ =>
      _move_xyzu env x y z u s param wait))

/-- `move`: relative positioning, then the limit check on current position plus
delta, then the gated move.  As in `move_to`, the `except` clauses re-raise
unchanged. -/
def move (env : Env) (dx dy dz du : Option ℚ) (s : ℚ) (param : Option String)
    (wait : Bool) : MRes Unit :=
  mbind (_set_relative_positioning env) (fun _ =>
    mbind (_check_axis_limits env [("X", dx), ("Y", dy), ("Z", dz)] true) (fun _ =>
      _move_xyzu env dx dy dz du s param wait))

/-! ## Homing -/

/-- Builds one per-axis homing helper (`_home_x`/`_home_y`/`_home_z`/`_home_u`):
simulation sets the flag directly; otherwise `G28 <axis>` is sent and the flag
set, any failure being wrapped into `JubileeHomingError`. -/
def homeAxis (env : Env) (cmd : String) (idx : ℕ) (failMsg : String) : MRes Unit :=
  mbind mget (fun st =>
    if st.simulated then
      mmodify (fun s => { s with axes_homed := s.axes_homed.set idx true })
    else
      mtry
        (mbind (gcode env cmd)
          (fun _ => mmodify (fun s => { s with axes_homed := s.axes_homed.set idx true })))
        (fun _e => mthrow (.homingError failMsg)))

/-- `_home_x`. -/
def _home_x (env : Env) : MRes Unit := homeAxis env "G28 X" 0 "Failed to home X axis."

/-- `_home_y`. -/
def _home_y (env : Env) : MRes Unit := homeAxis env "G28 Y" 1 "Failed to home Y axis."

/-- `_home_u`. -/
def _home_u (env : Env) : MRes Unit := homeAxis env "G28 U" 3 "Failed to home U axis."

/-- `_home_z`. -/
def _home_z (env : Env) : MRes Unit := homeAxis env "G28 Z" 2 "Failed to home Z axis."

/-- `home_xyu`: home U, then Y, then X, restore absolute positioning, re-query
the homed status from the object model (`homed_status[2]` raises `IndexError`
when the reported list is too short) and write
`[True, True, homed_status[2], True]` into the cache; any failure of the block
is wrapped into `JubileeHomingError("Failed to home XYU axes.")`. -/
def home_xyu (env : Env) : MRes Unit :=
  mbind mget (fun st =>
    if st.simulated then
      mmodify (fun s => { s with axes_homed := [true, true, true, true] })
    else
      mtry
        (mbind (_home_u env) (fun _ =>
         mbind (_home_y env) (fun _ =>
         mbind (_home_x env) (fun _ =>
         mbind (_set_absolute_positioning env) (fun _ =>
         mbind (queryHomedParsed env) (fun homedStatus =>
           match homedStatus.get? 2 with
           | some zHomed =>
               mmodify (fun s => { s with axes_homed := [true, true, zHomed, true] })
           | none => mthrow (.indexError "list index out of range")))))))
        (fun _e => mthrow (.homingError "Failed to home XYU axes.")))

/-! ## Tool lock/unlock and exchange sequences -/

/-- The tool-lock macro command. -/
def toolLockCmd : String := "M98 P\"0:/macros/tool_manager/tool_lock.g\""

/-- The tool-unlock macro command. -/
def toolUnlockCmd : String := "M98 P\"0:/macros/tool_manager/tool_unlock.g\""

/-- `tool_lock_macro` (also the default `tool_lock`). -/
def tool_lock (env : Env) : MRes Unit :=
  mbind mget (fun st =>
    if st.simulated then mpure ()
    else mbind (gcode env toolLockCmd) (fun _ => mpure ()))

/-- `tool_unlock_macro` (also the default `tool_unlock`). -/
def tool_unlock (env : Env) : MRes Unit :=
  mbind mget (fun st =>
    if st.simulated then mpure ()
    else mbind (gcode env toolUnlockCmd) (fun _ => mpure ()))

/-- Per-tool parking geometry record. -/
structure ParkPos where
  x_park : ℚ
  y_clear : ℚ
  y_park : ℚ
  z_park : ℚ
  deriving DecidableEq, Repr

/-- The `tool_parking_positions` table built in `__init__` (keys 0–3). -/
def tool_parking_positions (index : ℤ) : Option ParkPos :=
  if index = 0 then some ⟨277, 280, 342, 150⟩
  else if index = 1 then some ⟨191, 280, 342, 150⟩
  else if index = 2 then some ⟨105, 280, 342, 150⟩
  else if index = 3 then some ⟨19, 280, 342, 150⟩
  else none

/-- `pickup_tool_sequence`: approach, engage, lock, retract — each move
blocking (`wait=True`); an index with no parking entry raises
`JubileeStateError` before anything is issued; `z_park` overrides the
configured parking height when supplied. -/
def pickup_tool_sequence (env : Env) (index : ℤ) (z_park : Option ℚ)
    (speed : ℚ) : MRes Unit :=
  mbind mget (fun st =>
    if st.simulated then mpure ()
    else
      match tool_parking_positions index with
      | none => mthrow (.stateError
          ("No parking position defined for tool " ++ toString index ++ "."))
      | some pos =>
        let z := z_park.getD pos.z_park
        mbind (move_to env (some pos.x_park) (some pos.y_clear) (some z) none speed none true)
          (fun _ =>
        mbind (move_to env (some pos.x_park) (some pos.y_park) (some z) none speed none true)
          (fun _ =>
        mbind (tool_lock env) (fun _ =>
          move_to env (some pos.x_park) (some pos.y_clear) (some z) none speed none true))))

/-- `park_tool_sequence`: textually the same choreography as
`pickup_tool_sequence` with the unlock macro in place of the lock macro. -/
def park_tool_sequence (env : Env) (index : ℤ) (z_park : Option ℚ)
    (speed : ℚ) : MRes Unit :=
  mbind mget (fun st =>
    if st.simulated then mpure ()
    else
      match tool_parking_positions index with
      | none => mthrow (.stateError
          ("No parking position defined for tool " ++ toString index ++ "."))
      | some pos =>
        let z := z_park.getD pos.z_park
        mbind (move_to env (some pos.x_park) (some pos.y_clear) (some z) none speed none true)
          (fun _ =>
        mbind (move_to env (some pos.x_park) (some pos.y_park) (some z) none speed none true)
          (fun _ =>
        mbind (tool_unlock env) (fun _ =>
          move_to env (some pos.x_park) (some pos.y_clear) (some z) none speed none true))))

/-! ## Scenario used by the claim theorems -/

deriving instance DecidableEq for Except

/-- Environment with a given homed-query result, a given `M114` reply, and no
transport failures. -/
def mkEnv (hs : Option (List Bool)) (m114 : String) : Env where
  homedResult := hs
  reply := fun c => if c = "M114" then m114 else ""
  cmdError := fun _ => none

/-- Environment of a healthy machine with all four axes homed and a parked
control point. -/
def envAllHomed : Env :=
  mkEnv (some [true, true, true, true]) "X:0.00 Y:0.00 Z:0.00 U:0.00 Count 0 0 0 0"

/-- Connected, non-simulated controller with limits `(0,300)` on X/Y/Z and
`(0,200)` on U, nothing homed in the cache, and an empty wire trace. -/
def baseSt : Ctl where
  simulated := false
  crash_detection := false
  connected := true
  absolute_positioning := true
  axes_homed := [false, false, false, false]
  axis_limits := [some (0, 300), some (0, 300), some (0, 300), some (0, 200)]
  trace := []

/-- Wire commands of one blocking `move_to` call: positioning mode, homing
query, the move itself, queue drain. -/
def moveBlock (g0 : String) : List String := ["G90", homedQueryCmd, g0, "M400"]

/-- The `G0` move commands of a trace, in order (the waypoint visits). -/
def g0Cmds (l : List String) : List String :=
  l.filter (fun c => List.isPrefixOf "G0".data c.data)

/-- Replaces the lock macro by the unlock macro in a trace. -/
def subLockUnlock (l : List String) : List String :=
  l.map (fun c => if c = toolLockCmd then toolUnlockCmd else c)

/-- Axis limits wide enough for the parking geometry (the parking `y_park` of
342 exceeds the 300 of `baseSt`). -/
def pkLimits : List (Option (ℚ × ℚ)) :=
  [some (0, 400), some (0, 400), some (0, 400), some (0, 200)]

/-- `baseSt` with the wide limits of `pkLimits`. -/
def pkSt : Ctl := { baseSt with axis_limits := pkLimits }

/-- `envAllHomed` but the tool-lock macro command fails with `e`. -/
def envLockFail (e : JubileeExc) : Env where
  homedResult := some [true, true, true, true]
  reply := fun _ => ""
  cmdError := fun c => if c = toolLockCmd then some e else none

/-- Environment of a homed machine whose current position is `X=50`. -/
def env50 : Env :=
  mkEnv (some [true, true, true, true]) "X:50.00 Y:0.00 Z:0.00 U:0.00 Count 0 0 0 0"

/-- `baseSt` with X limits `(0, 100)`. -/
def st100 : Ctl :=
  { baseSt with axis_limits := [some (0, 100), some (0, 300), some (0, 300), some (0, 200)] }

/-- Expected wire trace of a successful pickup sequence. -/
def pickupWire (pos : ParkPos) (z : ℚ) : List String :=
  moveBlock (moveCmd (some pos.x_park) (some pos.y_clear) (some z) none 6000 none) ++
  moveBlock (moveCmd (some pos.x_park) (some pos.y_park) (some z) none 6000 none) ++
  [toolLockCmd] ++
  moveBlock (moveCmd (some pos.x_park) (some pos.y_clear) (some z) none 6000 none)

/-- Expected wire trace of a successful park sequence. -/
def parkWire (pos : ParkPos) (z : ℚ) : List String :=
  moveBlock (moveCmd (some pos.x_park) (some pos.y_clear) (some z) none 6000 none) ++
  moveBlock (moveCmd (some pos.x_park) (some pos.y_park) (some z) none 6000 none) ++
  [toolUnlockCmd] ++
  moveBlock (moveCmd (some pos.x_park) (some pos.y_clear) (some z) none 6000 none)

/-! ## Bridging lemmas for the rational helpers -/

theorem qle_iff (a b : ℚ) : qle a b = true ↔ a ≤ b := by
  rw [Rat.le_def]; simp [qle]

theorem qadd_eq (a b : ℚ) : qadd a b = a + b := by
  have ha : ((a.den : ℚ)) ≠ 0 := by exact_mod_cast a.den_nz
  have hb : ((b.den : ℚ)) ≠ 0 := by exact_mod_cast b.den_nz
  rw [qadd, Rat.mkRat_eq_divInt, Rat.divInt_eq_div]
  conv_rhs => rw [← Rat.num_div_den a, ← Rat.num_div_den b]
  rw [div_add_div _ _ ha hb]
  push_cast
  ring_nf

/-! ## Evaluation lemmas for single operations -/

theorem gcode_run_ok (env : Env) (cmd : String) (s : Ctl)
    (hsim : s.simulated = false) (hcon : s.connected = true)
    (hce : env.cmdError cmd = none) :
    gcode env cmd s = (.ok (env.reply cmd), { s with trace := s.trace ++ [cmd] }) := by
  simp [gcode, hsim, hcon, hce]

theorem gcode_run_err (env : Env) (cmd : String) (s : Ctl) (e : JubileeExc)
    (hsim : s.simulated = false) (hcon : s.connected = true)
    (hce : env.cmdError cmd = some e) :
    gcode env cmd s = (.error e, { s with trace := s.trace ++ [cmd] }) := by
  simp [gcode, hsim, hcon, hce]

theorem setAbs_run (env : Env) (s : Ctl)
    (hsim : s.simulated = false) (hcon : s.connected = true)
    (hce : env.cmdError "G90" = none) :
    _set_absolute_positioning env s =
      (.ok (), { s with trace := s.trace ++ ["G90"], absolute_positioning := true }) := by
  simp [_set_absolute_positioning, mbind, mget, mmodify, gcode_run_ok env _ s hsim hcon hce, hsim]

theorem setRel_run (env : Env) (s : Ctl)
    (hsim : s.simulated = false) (hcon : s.connected = true)
    (hce : env.cmdError "G91" = none) :
    _set_relative_positioning env s =
      (.ok (), { s with trace := s.trace ++ ["G91"], absolute_positioning := false }) := by
  simp [_set_relative_positioning, mbind, mget, mmodify, gcode_run_ok env _ s hsim hcon hce, hsim]

theorem mbind_ok {α β : Type} (m : MRes α) (k : α → MRes β) (s s' : Ctl) (a : α)
    (h : m s = (.ok a, s')) : mbind m k s = k a s' := by
  simp [mbind, h]

theorem mbind_err {α β : Type} (m : MRes α) (k : α → MRes β) (s s' : Ctl) (e : JubileeExc)
    (h : m s = (.error e, s')) : mbind m k s = (.error e, s') := by
  simp [mbind, h]

theorem machine_homed_run_pass {α : Type} (env : Env) (act : MRes α) (s : Ctl)
    (hsim : s.simulated = false) (hcon : s.connected = true)
    (hce : env.cmdError homedQueryCmd = none)
    (hp : env.homedResult.map (fun l => (l.take 4).all id) = some true) :
    machine_homed env act s = act { s with trace := s.trace ++ [homedQueryCmd] } := by
  obtain ⟨hs, hhr, hall⟩ :
      ∃ hs, env.homedResult = some hs ∧ ((hs.take 4).all id : Bool) = true := by
    cases h : env.homedResult with
    | none => rw [h] at hp; exact absurd hp (by simp)
    | some l => exact ⟨l, rfl, by rw [h] at hp; simpa using hp⟩
  simp [machine_homed, queryHomedParsed, mbind, mget, mtry, mpure, hsim,
    gcode_run_ok env _ s hsim hcon hce, hhr, hall]

theorem machine_homed_run_fail {α : Type} (env : Env) (act : MRes α) (s : Ctl)
    (hsim : s.simulated = false) (hcon : s.connected = true)
    (hce : env.cmdError homedQueryCmd = none)
    (hp : env.homedResult.map (fun l => (l.take 4).all id) = some false) :
    machine_homed env act s =
      (.error (.stateError "Error: The machine must be homed (X, Y, Z, U) before this operation."),
       { s with trace := s.trace ++ [homedQueryCmd] }) := by
  obtain ⟨hs, hhr, hall⟩ :
      ∃ hs, env.homedResult = some hs ∧ ((hs.take 4).all id : Bool) = false := by
    cases h : env.homedResult with
    | none => rw [h] at hp; exact absurd hp (by simp)
    | some l => exact ⟨l, rfl, by rw [h] at hp; simpa using hp⟩
  simp [machine_homed, queryHomedParsed, mbind, mget, mtry, mpure, mthrow, hsim,
    gcode_run_ok env _ s hsim hcon hce, hhr, hall]

theorem moveXYZU_run_ok (env : Env) (x y z u : Option ℚ) (sp : ℚ) (param : Option String)
    (wait : Bool) (s : Ctl)
    (hsim : s.simulated = false) (hcon : s.connected = true)
    (hceq : env.cmdError homedQueryCmd = none)
    (hp : env.homedResult.map (fun l => (l.take 4).all id) = some true)
    (hcemv : env.cmdError (moveCmd x y z u sp param) = none)
    (hcew : env.cmdError "M400" = none) :
    _move_xyzu env x y z u sp param wait s =
      (.ok (), { s with trace := s.trace ++ [homedQueryCmd, moveCmd x y z u sp param] ++
                          (if wait then ["M400"] else []) }) := by
  rw [_move_xyzu, machine_homed_run_pass env _ s hsim hcon hceq hp]
  cases wait <;>
    simp [mbind, mget, mpure, hsim, hcon, hcemv, hcew, gcode_run_ok]

theorem getPosition_run (env : Env) (s : Ctl)
    (hsim : s.simulated = false) (hcon : s.connected = true)
    (hce : env.cmdError "M114" = none)
    (hcount : containsStr (env.reply "M114") "Count" = true) :
    get_position env s =
      (.ok (parsePositionReply (env.reply "M114")), { s with trace := s.trace ++ ["M114"] }) := by
  simp [get_position, getPositionLoop, mbind, mget, mpure, hsim,
    gcode_run_ok env "M114" s hsim hcon hce, hcount]

@[simp] theorem mkEnv_cmdError (hs : Option (List Bool)) (r : String) (c : String) :
    (mkEnv hs r).cmdError c = none := rfl

@[simp] theorem mkEnv_homedResult (hs : Option (List Bool)) (r : String) :
    (mkEnv hs r).homedResult = hs := rfl

@[simp] theorem mkEnv_reply_m114 (hs : Option (List Bool)) (r : String) :
    (mkEnv hs r).reply "M114" = r := rfl

/-! ## Claim C1: the homing gate of `move_to`/`move` -/

/-- C1 (counterexample): on a non-simulated connected controller whose cached
homed flags already report all four axes homed, `move_to` still performs the
fresh hardware homing query (`M409 K"move.axes[].homed"` appears on the wire
trace), contradicting "performs a fresh hardware homing query only if the cache
does not report all four axes homed". -/
theorem claim_C1_counterexample :
    move_to (mkEnv (some [true, true, true, true]) "") (some 10) none none none 6000 none false
        { baseSt with axes_homed := [true, true, true, true] } =
      (.ok (), { baseSt with
                 axes_homed := [true, true, true, true],
                 trace := ["G90", homedQueryCmd, moveCmd (some 10) none none none 6000 none] }) ∧
    homedQueryCmd ∈ ["G90", homedQueryCmd, moveCmd (some 10) none none none 6000 none] ∧
    ([true, true, true, true] : List Bool).all id = true := by
  refine ⟨by rfl, by simp, by decide⟩

/-- C1 (amended): the homing gate of a non-simulated connected `move_to` never
consults the cached homed flags — for every cache content it performs the fresh
hardware homing query — and it fails with the not-homed `JubileeStateError`
exactly when the first four axes reported by that query are not all homed; when
all four report homed the gate passes and the move proceeds. -/
theorem claim_C1 (cache hs : List Bool) :
    (((hs.take 4).all id = true →
      move_to (mkEnv (some hs) "") (some 10) none none none 6000 none false
          { baseSt with axes_homed := cache } =
        (.ok (), { baseSt with
                   axes_homed := cache,
                   absolute_positioning := true,
                   trace := ["G90", homedQueryCmd, moveCmd (some 10) none none none 6000 none] })) ∧
     ((hs.take 4).all id = false →
      move_to (mkEnv (some hs) "") (some 10) none none none 6000 none false
          { baseSt with axes_homed := cache } =
        (.error (.stateError
            "Error: The machine must be homed (X, Y, Z, U) before this operation."),
         { baseSt with
           axes_homed := cache, absolute_positioning := true,
           trace := ["G90", homedQueryCmd] }))) := by
  constructor
  · intro hall
    simp [move_to, mbind, setAbs_run, baseSt, _check_axis_limits, checkLimitsLoop, dictGet,
      mget, mpure, moveXYZU_run_ok, hall, qle]
  · intro hall
    simp [move_to, mbind, setAbs_run, baseSt, _check_axis_limits, checkLimitsLoop, dictGet,
      mget, mpure, _move_xyzu, machine_homed_run_fail, hall, qle]

/-- C1 (witness): the amended gate theorem applied with an all-false cache, once
with the hardware reporting all homed (the move proceeds) and once with Z
reported unhomed (the not-homed error). -/
theorem claim_C1_witness :
    (move_to (mkEnv (some [true, true, true, true]) "") (some 10) none none none 6000 none false
        { baseSt with axes_homed := [false, false, false, false] } =
      (.ok (), { baseSt with
                 axes_homed := [false, false, false, false],
                 absolute_positioning := true,
                 trace := ["G90", homedQueryCmd, moveCmd (some 10) none none none 6000 none] })) ∧
    (move_to (mkEnv (some [true, true, false, true]) "") (some 10) none none none 6000 none false
        { baseSt with axes_homed := [false, false, false, false] } =
      (.error (.stateError
          "Error: The machine must be homed (X, Y, Z, U) before this operation."),
       { baseSt with
         axes_homed := [false, false, false, false], absolute_positioning := true,
         trace := ["G90", homedQueryCmd] })) :=
  ⟨(claim_C1 [false, false, false, false] [true, true, true, true]).1 (by decide),
   (claim_C1 [false, false, false, false] [true, true, false, true]).2 (by decide)⟩

/-! ## Claim C2: axis-limit enforcement of `move_to` -/

/-- C2 (counterexample): the U axis has a configured limit `(0, 200)` in
`_axis_limits`, yet `move_to` with `u = 500` succeeds and emits the move (only
X/Y/Z are ever limit-checked); moreover, a `move_to` rejected by the X limit
has already issued the wire command `G90`, contradicting "issues no wire
command at all". -/
theorem claim_C2_counterexample :
    (move_to envAllHomed none none none (some 500) 6000 none false baseSt =
      (.ok (), { baseSt with
                 trace := ["G90", homedQueryCmd, moveCmd none none none (some 500) 6000 none] }) ∧
     baseSt.axis_limits.get? 3 = some (some (0, 200)) ∧
     ¬ ((500 : ℚ) ≤ 200)) ∧
    (move_to envAllHomed (some 400) none none none 6000 none false baseSt).2.trace = ["G90"] := by
  refine ⟨⟨by rfl, by rfl, by norm_num⟩, by rfl⟩

/-- C2 (amended): for the X, Y, Z axes with configured `(min,max)`, an absolute
`move_to` whose target lies outside `[min,max]` fails with the axis-limit
`JubileeStateError` and issues no homing query and no `G0` move command (the
positioning-mode command `G90` has already been sent when the check runs); a
target inside the inclusive range — including exactly `min` or `max` — passes;
an axis whose configured limit entry is `None` is unchecked; a `None` target is
never checked even against an unsatisfiable configured range; the U target is
never limit-checked at all. -/
theorem claim_C2 (v : ℚ) :
    ((¬ (0 ≤ v ∧ v ≤ 300) →
      move_to envAllHomed (some v) none none none 6000 none false baseSt =
        (.error (.stateError (limitMsg false "X" 0 300)),
         { baseSt with absolute_positioning := true, trace := ["G90"] })) ∧
     (0 ≤ v ∧ v ≤ 300 →
      move_to envAllHomed (some v) none none none 6000 none false baseSt =
        (.ok (), { baseSt with
                   absolute_positioning := true,
                   trace := ["G90", homedQueryCmd, moveCmd (some v) none none none 6000 none] })) ∧
     (move_to envAllHomed none (some v) none none 6000 none false
        { baseSt with axis_limits := [some (0, 300), none, some (0, 300), some (0, 200)] } =
        (.ok (), { baseSt with
                   axis_limits := [some (0, 300), none, some (0, 300), some (0, 200)],
                   absolute_positioning := true,
                   trace := ["G90", homedQueryCmd, moveCmd none (some v) none none 6000 none] })) ∧
     (move_to envAllHomed none (some 5) none none 6000 none false
        { baseSt with axis_limits := [some (1, 1), some (0, 300), some (0, 300), some (0, 200)] } =
        (.ok (), { baseSt with
                   axis_limits := [some (1, 1), some (0, 300), some (0, 300), some (0, 200)],
                   absolute_positioning := true,
                   trace := ["G90", homedQueryCmd, moveCmd none (some 5) none none 6000 none] })) ∧
     (move_to envAllHomed none none none (some v) 6000 none false baseSt =
        (.ok (), { baseSt with
                   absolute_positioning := true,
                   trace := ["G90", homedQueryCmd, moveCmd none none none (some v) 6000 none] }))) := by
  refine ⟨?_, ?_, ?_, ?_, ?_⟩
  · intro h
    simp [move_to, mbind, setAbs_run, baseSt, envAllHomed, _check_axis_limits, checkLimitsLoop,
      dictGet, mget, mpure, mthrow, qle_iff, h]
  · intro h
    simp [move_to, mbind, setAbs_run, baseSt, envAllHomed, _check_axis_limits, checkLimitsLoop,
      dictGet, mget, mpure, moveXYZU_run_ok, qle_iff, h.1, h.2]
  · simp [move_to, mbind, setAbs_run, baseSt, envAllHomed, _check_axis_limits, checkLimitsLoop,
      dictGet, mget, mpure, moveXYZU_run_ok, qle_iff]
  · simp [move_to, mbind, setAbs_run, baseSt, envAllHomed, _check_axis_limits, checkLimitsLoop,
      dictGet, mget, mpure, moveXYZU_run_ok, qle_iff,
      (by norm_num : ((5 : ℚ) ≤ 300))]
  · simp [move_to, mbind, setAbs_run, baseSt, envAllHomed, _check_axis_limits, checkLimitsLoop,
      dictGet, mget, mpure, moveXYZU_run_ok, qle_iff]

/-- C2 (witness): the amended limit theorem applied at `v = 301` (rejected
before any `G0`), `v = 0` and `v = 300` (both boundary targets pass). -/
theorem claim_C2_witness :
    (move_to envAllHomed (some 301) none none none 6000 none false baseSt =
      (.error (.stateError (limitMsg false "X" 0 300)),
       { baseSt with absolute_positioning := true, trace := ["G90"] })) ∧
    (move_to envAllHomed (some 0) none none none 6000 none false baseSt =
      (.ok (), { baseSt with
                 absolute_positioning := true,
                 trace := ["G90", homedQueryCmd, moveCmd (some 0) none none none 6000 none] })) ∧
    (move_to envAllHomed (some 300) none none none 6000 none false baseSt =
      (.ok (), { baseSt with
                 absolute_positioning := true,
                 trace := ["G90", homedQueryCmd, moveCmd (some 300) none none none 6000 none] })) :=
  ⟨(claim_C2 301).1 (by norm_num),
   (claim_C2 0).2.1 (by norm_num),
   (claim_C2 300).2.1 (by norm_num)⟩

/-! ## Claim C5: relative moves check current position + delta -/

/-- C5: for a relative `move` with X limits `(0, 100)` and current position
`X = 50` (fetched over the wire via `M114`), the bound check is applied to
`current + delta`: the move is rejected exactly when `50 + dx` leaves
`[0, 100]`.  The delta alone being in range does not help (`dx = 60` is in
`[0, 100]` yet `50 + 60` is rejected, as the final conjunct records). -/
theorem claim_C5 (dx : ℚ) :
    ((¬ (0 ≤ 50 + dx ∧ 50 + dx ≤ 100) →
      move env50 (some dx) none none none 6000 none false st100 =
        (.error (.stateError (limitMsg true "X" 0 100)),
         { st100 with absolute_positioning := false, trace := ["G91", "M114"] })) ∧
     (0 ≤ 50 + dx ∧ 50 + dx ≤ 100 →
      move env50 (some dx) none none none 6000 none false st100 =
        (.ok (), { st100 with
                   absolute_positioning := false,
                   trace := ["G91", "M114", homedQueryCmd,
                             moveCmd (some dx) none none none 6000 none] })) ∧
     (0 ≤ (60 : ℚ) ∧ (60 : ℚ) ≤ 100)) := by
  have hpos : parsePositionReply "X:50.00 Y:0.00 Z:0.00 U:0.00 Count 0 0 0 0" =
      [("X", some 50), ("Y", some 0), ("Z", some 0), ("U", some 0)] := by rfl
  have hcnt : containsStr "X:50.00 Y:0.00 Z:0.00 U:0.00 Count 0 0 0 0" "Count" = true := by rfl
  refine ⟨?_, ?_, by norm_num⟩
  · intro h
    simp [move, mbind, setRel_run, st100, baseSt, env50, _check_axis_limits, checkLimitsLoop,
      dictGet, mget, mpure, mthrow, getPosition_run, hpos, hcnt, qadd_eq, qle_iff, h]
  · intro h
    simp [move, mbind, setRel_run, st100, baseSt, env50, _check_axis_limits, checkLimitsLoop,
      dictGet, mget, mpure, moveXYZU_run_ok, getPosition_run, hpos, hcnt, qadd_eq, qle_iff,
      h.1, h.2]

/-- C5 (witness): with current X = 50 and X limits `[0, 100]`, `move(dx=60)`
fails with the axis-limit error and `move(dx=40)` succeeds. -/
theorem claim_C5_witness :
    (move env50 (some 60) none none none 6000 none false st100 =
      (.error (.stateError (limitMsg true "X" 0 100)),
       { st100 with absolute_positioning := false, trace := ["G91", "M114"] })) ∧
    (move env50 (some 40) none none none 6000 none false st100 =
      (.ok (), { st100 with
                 absolute_positioning := false,
                 trace := ["G91", "M114", homedQueryCmd,
                           moveCmd (some 40) none none none 6000 none] })) :=
  ⟨(claim_C5 60).1 (by norm_num), (claim_C5 40).2.1 (by norm_num)⟩

/-! ## Claim C3: `home_xyu` ordering and final cache state -/

theorem homeAxis_run_ok (env : Env) (cmd : String) (idx : ℕ) (failMsg : String) (s : Ctl)
    (hsim : s.simulated = false) (hcon : s.connected = true)
    (hce : env.cmdError cmd = none) :
    homeAxis env cmd idx failMsg s =
      (.ok (), { s with trace := s.trace ++ [cmd], axes_homed := s.axes_homed.set idx true }) := by
  simp [homeAxis, mtry, mbind, mget, mmodify, hsim, gcode_run_ok env cmd s hsim hcon hce]

theorem queryHomedParsed_run (env : Env) (s : Ctl)
    (hsim : s.simulated = false) (hcon : s.connected = true)
    (hce : env.cmdError homedQueryCmd = none) (hr : env.homedResult.isSome = true) :
    queryHomedParsed env s =
      (.ok (env.homedResult.getD []), { s with trace := s.trace ++ [homedQueryCmd] }) := by
  cases h : env.homedResult with
  | none => rw [h] at hr; exact absurd hr (by simp)
  | some hs =>
    simp [queryHomedParsed, mbind, mpure, gcode_run_ok env _ s hsim hcon hce, h]

/-- C3: on a non-simulated connected controller, a successful `home_xyu` emits
exactly `G28 U`, `G28 Y`, `G28 X` in that fixed order, then restores absolute
positioning (`G90`), then performs exactly one re-query of the hardware homing
status, and finally overwrites the cached flags with
`[true, true, <Z reported by that query>, true]`, whatever the cache held
before. -/
theorem claim_C3 (cache hs : List Bool) (b : Bool) (h2 : hs[2]? = some b) :
    home_xyu (mkEnv (some hs) "") { baseSt with axes_homed := cache } =
      (.ok (), { baseSt with
                 absolute_positioning := true,
                 axes_homed := [true, true, b, true],
                 trace := ["G28 U", "G28 Y", "G28 X", "G90", homedQueryCmd] }) := by
  simp [home_xyu, mtry, mbind, mget, mmodify, mpure, baseSt, _home_u, _home_y, _home_x,
    homeAxis_run_ok, setAbs_run, queryHomedParsed_run, h2]

/-- C3 (witness): `home_xyu` with the hardware re-query reporting Z unhomed
leaves `axes_homed = [true, true, false, true]` after the fixed U, Y, X
command order. -/
theorem claim_C3_witness :
    home_xyu (mkEnv (some [true, true, false, true]) "")
        { baseSt with axes_homed := [false, false, false, false] } =
      (.ok (), { baseSt with
                 absolute_positioning := true,
                 axes_homed := [true, true, false, true],
                 trace := ["G28 U", "G28 Y", "G28 X", "G90", homedQueryCmd] }) :=
  claim_C3 [false, false, false, false] [true, true, false, true] false (by decide)

/-! ## Claim C9: position-reply parsing -/

/-- C9 (counterexample): a token whose value fails numeric parse
(`"X:abc"`) is not absent from the mapping — `get_position` records the key
`"X"` mapped to a null value (Python `positions[axis] = None`), so the lookup
returns `some none` rather than `none`. -/
theorem claim_C9_counterexample :
    get_position (mkEnv (some [true, true, true, true]) "X:abc Y:2.00 Count 0 0") baseSt =
      (.ok [("X", none), ("Y", some 2)], { baseSt with trace := ["M114"] }) ∧
    dictGet (parsePositionReply "X:abc Y:2.00 Count 0 0") "X" = some none ∧
    dictGet (parsePositionReply "X:abc Y:2.00 Count 0 0") "X" ≠ none := by
  refine ⟨by rfl, by rfl, by decide⟩

/-- C9 (amended): `get_position` splits the reply on the literal substring
`" Count "`, keeps only the prefix, and parses whitespace-separated
`AXIS:value` tokens into a mapping — the claim's example reply parses to
`{X: 1.50, Y: 2.00, Z: 0.00, U: 0.00}` and text after the first `" Count "` is
ignored — but a token whose value fails numeric parse is recorded in the
mapping with a null value (key present, mapped to `None`) rather than being
absent or raising an error. -/
theorem claim_C9 :
    (get_position (mkEnv (some [true, true, true, true])
        "X:1.50 Y:2.00 Z:0.00 U:0.00 Count 0 0 0 0") baseSt =
      (.ok [("X", some (mkRat 3 2)), ("Y", some 2), ("Z", some 0), ("U", some 0)],
       { baseSt with trace := ["M114"] })) ∧
    (parsePositionReply ("X:1.00" ++ " Count " ++ "X:9.99 Z:7.00") = [("X", some 1)]) ∧
    (takeBeforeFirst " Count " "X:1.50 Y:2.00 Z:0.00 U:0.00 Count 0 0 0 0" =
      "X:1.50 Y:2.00 Z:0.00 U:0.00") ∧
    (parsePositionReply "X:abc Y:2.00 Count 0 0" = [("X", none), ("Y", some 2)]) := by
  refine ⟨by rfl, by rfl, by rfl, by rfl⟩

/-! ## Claim C10: undefined tool index -/

/-- C10: for every tool index outside 0–3 (the keys of
`tool_parking_positions`) and every non-simulated controller state, both
`pickup_tool_sequence` and `park_tool_sequence` fail with a
`JubileeStateError` naming the index, and the machine state — including the
wire trace — is left completely unchanged: no motion, lock or unlock command
is issued. -/
theorem claim_C10 (idx : ℤ) (st : Ctl) (h : idx < 0 ∨ 3 < idx)
    (hsim : st.simulated = false) :
    pickup_tool_sequence envAllHomed idx none 6000 st =
      (.error (.stateError ("No parking position defined for tool " ++ toString idx ++ ".")),
       st) ∧
    park_tool_sequence envAllHomed idx none 6000 st =
      (.error (.stateError ("No parking position defined for tool " ++ toString idx ++ ".")),
       st) := by
  have hnone : tool_parking_positions idx = none := by
    rw [tool_parking_positions, if_neg (by omega), if_neg (by omega), if_neg (by omega),
      if_neg (by omega)]
  constructor <;>
    simp [pickup_tool_sequence, park_tool_sequence, mbind, mget, mthrow, hsim, hnone]

/-- C10 (witness): index 4 is rejected by both sequences with the state
untouched. -/
theorem claim_C10_witness :
    pickup_tool_sequence envAllHomed 4 none 6000 baseSt =
      (.error (.stateError "No parking position defined for tool 4."), baseSt) ∧
    park_tool_sequence envAllHomed 4 none 6000 baseSt =
      (.error (.stateError "No parking position defined for tool 4."), baseSt) :=
  claim_C10 4 baseSt (by norm_num) (by rfl)

/-! ## Claim C4: crash detection on the fallback path -/

/-- C4 (counterexample): with crash detection enabled and a fallback reply
containing the crash marker, the error surfaced to the caller is a
`JubileeCommunicationError` (wrapping the crash message), the same kind as an
ordinary communication failure such as the reply timeout — not a distinct
machine-fault kind. -/
theorem claim_C4_counterexample :
    gcode_transport true .requestException (.newReply "crash detected") =
      .error (.communicationError
        "G-code communication failed: Crash detected during G-code execution!") ∧
    gcode_fallback true .timedOut =
      .error (.communicationError
        "G-code communication failed: Timeout waiting for G-code reply.") := by
  refine ⟨by rfl, by rfl⟩

/-- C4 (amended): with crash detection enabled, a fallback reply containing the
crash marker makes the fallback block raise the machine-fault
`JubileeStateError` internally (distinct from communication failure, and never
retried), but the surrounding `except Exception` handler of `gcode` catches it
and re-raises `JubileeCommunicationError("G-code communication failed: …")`
embedding the crash message — so the caller observes a communication-error
kind, not the fault kind; with crash detection disabled the same reply is
returned as the result. -/
theorem claim_C4 (t : String) (h : containsStr t "crash detected" = true) :
    (gcode_fallback_inner true (.newReply t) =
      .error (.stateError "Crash detected during G-code execution!")) ∧
    (gcode_transport true .requestException (.newReply t) =
      .error (.communicationError
        "G-code communication failed: Crash detected during G-code execution!")) ∧
    (gcode_transport false .requestException (.newReply t) = .ok t) := by
  refine ⟨?_, ?_, ?_⟩
  · simp [gcode_fallback_inner, h]
  · simp [gcode_transport, gcode_fallback, gcode_fallback_inner, h, JubileeExc.message]
  · simp [gcode_transport, gcode_fallback, gcode_fallback_inner]

/-- C4 (witness): the amended theorem at the reply text `"crash detected"`. -/
theorem claim_C4_witness :
    (gcode_fallback_inner true (.newReply "crash detected") =
      .error (.stateError "Crash detected during G-code execution!")) ∧
    (gcode_transport true .requestException (.newReply "crash detected") =
      .error (.communicationError
        "G-code communication failed: Crash detected during G-code execution!")) ∧
    (gcode_transport false .requestException (.newReply "crash detected") =
      .ok "crash detected") :=
  claim_C4 "crash detected" (by rfl)

/-! ## Claim C8: wire formatting of coordinates -/

theorem natDigs_digits : ∀ fuel n : ℕ, ∀ c ∈ natDigs fuel n, c.isDigit = true ∧ c ≠ '.' := by
  have hdig : ∀ r : ℕ, r < 10 → (decDigit r).isDigit = true ∧ decDigit r ≠ '.' := by
    decide
  intro fuel
  induction fuel with
  | zero => intro n c hc; simp [natDigs] at hc
  | succ f ih =>
    intro n c hc
    by_cases hn : n < 10
    · simp [natDigs, hn] at hc
      subst hc
      exact hdig n hn
    · simp [natDigs, hn] at hc
      rcases hc with hc | hc
      · exact ih (n / 10) c hc
      · subst hc
        exact hdig (n % 10) (Nat.mod_lt _ (by norm_num))

theorem natToStr_digits (n : ℕ) : ∀ c ∈ (natToStr n).data, c.isDigit = true ∧ c ≠ '.' :=
  fun c hc => natDigs_digits (n + 1) n c hc

theorem fracPad2_shape : ∀ m : ℕ, m < 100 →
    (fracPad2 m).length = 2 ∧ (fracPad2 m).data.all Char.isDigit = true := by decide

/-- C8: every formatted coordinate has the shape `pre ++ "." ++ frac` with
exactly two decimal digits after the (unique) decimal point, whatever the input
precision; the non-simulated move command for `x = 12.3` is exactly
`G0 X12.30 F6000.00`, which contains `X12.30`; a `None` axis value produces no
command part at all (here Y is absent from the emitted parts); and a `None`
target is never limit-checked even against an unsatisfiable configured
range. -/
theorem claim_C8 (q a b c sp : ℚ) (st : Ctl) :
    ((∃ pre frac : String, fmtFixed2 q = pre ++ "." ++ frac ∧ frac.length = 2 ∧
        frac.data.all Char.isDigit = true ∧ '.' ∉ pre.data) ∧
     (moveCmd (some (mkRat 123 10)) none none none 6000 none = "G0 X12.30 F6000.00") ∧
     (containsStr (moveCmd (some (mkRat 123 10)) none none none 6000 none) "X12.30" = true) ∧
     (moveCmdParts (some a) none (some b) (some c) sp =
       ["X" ++ fmtFixed2 a, "Z" ++ fmtFixed2 b, "U" ++ fmtFixed2 c, "F" ++ fmtFixed2 sp]) ∧
     (checkLimitsLoop [("X", some (1, 1)), ("Y", some (0, 300)), ("Z", some (0, 300))] [] false
        [("X", none), ("Y", some 5), ("Z", none)] st = (.ok (), st))) := by
  refine ⟨?_, by rfl, by rfl, by rfl, ?_⟩
  · refine ⟨(if q.num < 0 then "-" else "") ++
        natToStr (rheNat (q.num.natAbs * 100) q.den / 100),
      fracPad2 (rheNat (q.num.natAbs * 100) q.den % 100), ?_, ?_, ?_, ?_⟩
    · rw [fmtFixed2]
    · exact (fracPad2_shape _ (Nat.mod_lt _ (by norm_num))).1
    · exact (fracPad2_shape _ (Nat.mod_lt _ (by norm_num))).2
    · intro hmem
      rw [String.data_append] at hmem
      rcases List.mem_append.mp hmem with hm | hm
      · by_cases hq : q.num < 0 <;> simp [hq] at hm
      · exact absurd rfl (natToStr_digits _ _ hm).2
  · simp [checkLimitsLoop, dictGet, mbind, mpure, qle_iff, (by norm_num : (0:ℚ) ≤ 5),
      (by norm_num : (5:ℚ) ≤ 300)]

/-! ## Claims C6 and C7: tool exchange sequences -/

theorem moveTo_block_run (env : Env) (x y z : ℚ) (s : Ctl)
    (hsim : s.simulated = false) (hcon : s.connected = true)
    (hlim : s.axis_limits = pkLimits)
    (hce90 : env.cmdError "G90" = none)
    (hceq : env.cmdError homedQueryCmd = none)
    (hcemv : env.cmdError (moveCmd (some x) (some y) (some z) none 6000 none) = none)
    (hcew : env.cmdError "M400" = none)
    (hp : env.homedResult.map (fun l => (l.take 4).all id) = some true)
    (hx : 0 ≤ x ∧ x ≤ 400) (hy : 0 ≤ y ∧ y ≤ 400) (hz : 0 ≤ z ∧ z ≤ 400) :
    move_to env (some x) (some y) (some z) none 6000 none true s =
      (.ok (), { s with
                 absolute_positioning := true,
                 trace := s.trace ++
                   moveBlock (moveCmd (some x) (some y) (some z) none 6000 none) }) := by
  simp [move_to, mbind, setAbs_run, hsim, hcon, hce90, _check_axis_limits, hlim, pkLimits,
    checkLimitsLoop, dictGet, mget, mpure, moveXYZU_run_ok, hceq, hcemv, hcew, hp, qle_iff,
    hx.1, hx.2, hy.1, hy.2, hz.1, hz.2, moveBlock]

theorem moveCmd_ne_lock (x y z u : Option ℚ) (sp : ℚ) (p : Option String) :
    moveCmd x y z u sp p ≠ toolLockCmd := by
  intro h
  have h1 : (moveCmd x y z u sp p).data.head? = some 'G' := rfl
  rw [h] at h1
  exact absurd h1 (by decide)

theorem parkPos_bounds (idx : ℤ) (pos : ParkPos) (h : tool_parking_positions idx = some pos) :
    (0 ≤ pos.x_park ∧ pos.x_park ≤ 400) ∧ (0 ≤ pos.y_clear ∧ pos.y_clear ≤ 400) ∧
    (0 ≤ pos.y_park ∧ pos.y_park ≤ 400) := by
  rw [tool_parking_positions] at h
  by_cases h0 : idx = 0
  · simp [h0] at h; rw [← h]; norm_num
  · by_cases h1 : idx = 1
    · simp [h0, h1] at h; rw [← h]; norm_num
    · by_cases h2 : idx = 2
      · simp [h0, h1, h2] at h; rw [← h]; norm_num
      · by_cases h3 : idx = 3
        · simp [h0, h1, h2, h3] at h; rw [← h]; norm_num
        · simp [h0, h1, h2, h3] at h

theorem envLockFail_cmdError_move (e : JubileeExc) (x y z u : Option ℚ) (sp : ℚ)
    (p : Option String) : (envLockFail e).cmdError (moveCmd x y z u sp p) = none := by
  simp [envLockFail, moveCmd_ne_lock x y z u sp p]

theorem envLockFail_cmdError_g90 (e : JubileeExc) : (envLockFail e).cmdError "G90" = none := rfl

theorem envLockFail_cmdError_hq (e : JubileeExc) :
    (envLockFail e).cmdError homedQueryCmd = none := rfl

theorem envLockFail_cmdError_m400 (e : JubileeExc) : (envLockFail e).cmdError "M400" = none := rfl

theorem envLockFail_cmdError_lock (e : JubileeExc) :
    (envLockFail e).cmdError toolLockCmd = some e := rfl

theorem envLockFail_homed (e : JubileeExc) :
    (envLockFail e).homedResult = some [true, true, true, true] := rfl

theorem g0_prefix_moveCmd (x y z u : Option ℚ) (sp : ℚ) (p : Option String) :
    List.isPrefixOf ['G', '0'] (moveCmd x y z u sp p).data = true := rfl

/-- C6: for every defined tool index, a successful non-simulated
`pickup_tool_sequence` puts exactly the four motion-related actions on the
wire, in the fixed order approach (`x_park`, `y_clear`, z), engage (`x_park`,
`y_park`, z), tool-lock macro, retract (`x_park`, `y_clear`, z) — each move
blocking — with z the supplied override or else the configured `z_park`
(`pickupWire` spells out this exact command sequence); and if the lock macro
step fails with any error `e`, the retract is never attempted (the trace ends
at the lock command) and `e` propagates to the caller unchanged. -/
theorem claim_C6 (idx : ℤ) (pos : ParkPos) (zo : Option ℚ) (e : JubileeExc)
    (hidx : tool_parking_positions idx = some pos)
    (hz : 0 ≤ zo.getD pos.z_park ∧ zo.getD pos.z_park ≤ 400) :
    (pickup_tool_sequence envAllHomed idx zo 6000 pkSt =
      (.ok (), { pkSt with
                 absolute_positioning := true,
                 trace := pickupWire pos (zo.getD pos.z_park) })) ∧
    (pickup_tool_sequence (envLockFail e) idx zo 6000 pkSt =
      (.error e,
       { pkSt with
         absolute_positioning := true,
         trace :=
           moveBlock (moveCmd (some pos.x_park) (some pos.y_clear)
             (some (zo.getD pos.z_park)) none 6000 none) ++
           moveBlock (moveCmd (some pos.x_park) (some pos.y_park)
             (some (zo.getD pos.z_park)) none 6000 none) ++
           [toolLockCmd] })) := by
  obtain ⟨hxb, hyc, hyp⟩ := parkPos_bounds idx pos hidx
  constructor
  · simp [pickup_tool_sequence, mbind, mget, mpure, hidx, moveTo_block_run, tool_lock,
      gcode_run_ok, envAllHomed, pkSt, baseSt, pickupWire, moveBlock,
      hxb.1, hxb.2, hyc.1, hyc.2, hyp.1, hyp.2, hz.1, hz.2]
  · simp [pickup_tool_sequence, mbind, mget, mpure, hidx, moveTo_block_run, tool_lock,
      gcode_run_err, envLockFail_cmdError_move, envLockFail_cmdError_g90, envLockFail_cmdError_hq,
      envLockFail_cmdError_m400, envLockFail_cmdError_lock, envLockFail_homed,
      pkSt, baseSt, moveBlock,
      hxb.1, hxb.2, hyc.1, hyc.2, hyp.1, hyp.2, hz.1, hz.2]

/-- C6 (witness): the pickup theorem at tool 0 with the default parking height,
at tool 1 with an explicit `z = 100` override, and the lock-failure case at
tool 0 with a concrete controller error. -/
theorem claim_C6_witness :
    (pickup_tool_sequence envAllHomed 0 none 6000 pkSt =
      (.ok (), { pkSt with
                 absolute_positioning := true,
                 trace := pickupWire ⟨277, 280, 342, 150⟩ 150 })) ∧
    (pickup_tool_sequence envAllHomed 1 (some 100) 6000 pkSt =
      (.ok (), { pkSt with
                 absolute_positioning := true,
                 trace := pickupWire ⟨191, 280, 342, 150⟩ 100 })) ∧
    (pickup_tool_sequence (envLockFail (.controllerError "lock failed")) 0 none 6000 pkSt =
      (.error (.controllerError "lock failed"),
       { pkSt with
         absolute_positioning := true,
         trace :=
           moveBlock (moveCmd (some 277) (some 280) (some 150) none 6000 none) ++
           moveBlock (moveCmd (some 277) (some 342) (some 150) none 6000 none) ++
           [toolLockCmd] })) :=
  ⟨(claim_C6 0 ⟨277, 280, 342, 150⟩ none (.controllerError "x") rfl (by norm_num)).1,
   (claim_C6 1 ⟨191, 280, 342, 150⟩ (some 100) (.controllerError "x") rfl (by norm_num)).1,
   (claim_C6 0 ⟨277, 280, 342, 150⟩ none (.controllerError "lock failed") rfl (by norm_num)).2⟩

/-- C7: for every defined tool index, `park_tool_sequence` succeeds with a wire
trace that is exactly the pickup trace with the unlock macro substituted for
the lock macro, and the sequence of `G0` waypoint visits of the park trace is
the reverse of the pickup trace's waypoint visits (the approach–engage–retract
waypoint path is a palindrome, so the reversed traversal coincides with it). -/
theorem claim_C7 (idx : ℤ) (pos : ParkPos) (zo : Option ℚ)
    (hidx : tool_parking_positions idx = some pos)
    (hz : 0 ≤ zo.getD pos.z_park ∧ zo.getD pos.z_park ≤ 400) :
    (park_tool_sequence envAllHomed idx zo 6000 pkSt =
      (.ok (), { pkSt with
                 absolute_positioning := true,
                 trace := parkWire pos (zo.getD pos.z_park) })) ∧
    parkWire pos (zo.getD pos.z_park) = subLockUnlock (pickupWire pos (zo.getD pos.z_park)) ∧
    g0Cmds (parkWire pos (zo.getD pos.z_park)) =
      (g0Cmds (pickupWire pos (zo.getD pos.z_park))).reverse := by
  obtain ⟨hxb, hyc, hyp⟩ := parkPos_bounds idx pos hidx
  refine ⟨?_, ?_, ?_⟩
  · simp [park_tool_sequence, mbind, mget, mpure, hidx, moveTo_block_run, tool_unlock,
      gcode_run_ok, envAllHomed, pkSt, baseSt, parkWire, moveBlock,
      hxb.1, hxb.2, hyc.1, hyc.2, hyp.1, hyp.2, hz.1, hz.2]
  · simp [parkWire, pickupWire, subLockUnlock, moveBlock, moveCmd_ne_lock,
      (by decide : ("G90" : String) = toolLockCmd ↔ False),
      (by decide : homedQueryCmd = toolLockCmd ↔ False),
      (by decide : ("M400" : String) = toolLockCmd ↔ False)]
  · simp [parkWire, pickupWire, g0Cmds, moveBlock, g0_prefix_moveCmd,
      List.filter_cons, List.filter_nil,
      (by decide : List.isPrefixOf ['G', '0'] ("G90" : String).data = false),
      (by decide : List.isPrefixOf ['G', '0'] homedQueryCmd.data = false),
      (by decide : List.isPrefixOf ['G', '0'] ("M400" : String).data = false),
      (by decide : List.isPrefixOf ['G', '0'] toolLockCmd.data = false),
      (by decide : List.isPrefixOf ['G', '0'] toolUnlockCmd.data = false)]

/-- C7 (witness): the park theorem at tool 0 with the default parking
height. -/
theorem claim_C7_witness :
    (park_tool_sequence envAllHomed 0 none 6000 pkSt =
      (.ok (), { pkSt with
                 absolute_positioning := true,
                 trace := parkWire ⟨277, 280, 342, 150⟩ 150 })) ∧
    parkWire ⟨277, 280, 342, 150⟩ 150 = subLockUnlock (pickupWire ⟨277, 280, 342, 150⟩ 150) ∧
    g0Cmds (parkWire ⟨277, 280, 342, 150⟩ 150) =
      (g0Cmds (pickupWire ⟨277, 280, 342, 150⟩ 150)).reverse :=
  claim_C7 0 ⟨277, 280, 342, 150⟩ none rfl (by norm_num)
